import Mathlib

/-!
Shallow embedding of the EBDS message codec (the `ebds` Rust crate):
checksum and framing primitives, the control-byte bitfield, the generic
`MessageOps` deserialization gate `from_buf`, and the reply variant
resolver `MessageVariant::from_buf`.

Byte buffers are modelled as `List Nat` whose entries are byte values;
machine-integer truncation is written explicitly (`&&& 0xff`, `% 256`)
where the source performs an `as u8` cast. Fallible Rust functions are
modelled in the `Res` monad below, which distinguishes `Ok`, `Err`, and
a Rust panic (such as an out-of-bounds slice index).
-/

namespace Ebds

/-- Outcome of running a fallible Rust function: `Ok`, `Err` with its
message, or a panic (out-of-bounds index and the like). -/
inductive Res (α : Type) where
  | ok : α → Res α
  | err : String → Res α
  | panic : Res α
deriving DecidableEq, Repr

def Res.bind {α β : Type} : Res α → (α → Res β) → Res β
  | .ok a, f => f a
  | .err e, _ => .err e
  | .panic, _ => .panic

def Res.map {α β : Type} (f : α → β) : Res α → Res β
  | .ok a => .ok (f a)
  | .err e => .err e
  | .panic => .panic

instance : Monad Res where
  pure := Res.ok
  bind := Res.bind
  map := Res.map

/-- Slice indexing `buf[i]`: panics when out of bounds, like Rust. -/
def idx (buf : List Nat) (i : Nat) : Res Nat :=
  match buf.get? i with
  | some b => .ok b
  | none => .panic

/-- `STX`: start byte for an EBDS packet (`0x02`). -/
def STX : Nat := 0x02

/-- `ETX`: end byte for an EBDS packet (`0x03`). -/
def ETX : Nat := 0x03

-- Byte indices shared by every message (the source's `index` module).
namespace Index

def STX : Nat := 0
def LEN : Nat := 1
def CONTROL : Nat := 2
def DATA : Nat := 3
def EXT_SUBTYPE : Nat := 3

end Index

-- Total message length constants (the source's `len` module).
namespace Len

def OMNIBUS_REPLY : Nat := 11
def START_DOWNLOAD_REPLY : Nat := 11
def BAUD_CHANGE_REPLY : Nat := 6
def FLASH_DOWNLOAD_REPLY_7BIT : Nat := 9
def FLASH_DOWNLOAD_REPLY_8BIT : Nat := 7
def EXTENDED_NOTE_REPLY : Nat := 30
def EXTENDED_NOTE_INHIBITS_REPLY_ALT : Nat := 12
def QUERY_VALUE_TABLE_REPLY : Nat := 82
def ADVANCED_BOOKMARK_MODE_REPLY : Nat := 13
def CLEAR_AUDIT_DATA_REQUEST_ACK : Nat := 13
def CLEAR_AUDIT_DATA_REQUEST_RESULTS : Nat := 13
def NOTE_RETRIEVED_REPLY : Nat := 13
def NOTE_RETRIEVED_EVENT : Nat := 13
def METADATA : Nat := 5
def MIN_MESSAGE : Nat := 5
def MAX_MESSAGE : Nat := 255

end Len

/-- `checksum`: XOR-fold, left to right, of every byte of the slice. -/
def checksum (data : List Nat) : Nat :=
  data.foldl (fun sum b => sum ^^^ b) 0

/-- The `bitfield` crate's bit-range store: clears bits `lsb..=msb` of
the control byte and stores the value there, masked to the field width.
For a `Nat` carrier, clearing a sub-mask of bits is subtraction of the
masked part. -/
def setBitRange (c msb lsb v : Nat) : Nat :=
  let mask : Nat := (1 <<< (msb - lsb + 1)) - 1
  (c - (c &&& (mask <<< lsb))) ||| ((v &&& mask) <<< lsb)

/-- `Control::from(u8)`: masks off bit 7 (unused / reserved). -/
def controlOfByte (b : Nat) : Nat := b &&& 0x7f

/-- `u8::from(Control)`: the raw control byte back. -/
def controlToByte (c : Nat) : Nat := c

/-- `Control::acknak`: the ACK/NAK flag is bit 0. -/
def controlAcknak (c : Nat) : Bool := c.testBit 0

/-- `Control::device_type`: raw device-type field, bits 1..=3. -/
def controlDeviceTypeBits (c : Nat) : Nat := (c >>> 1) &&& 0x7

/-- `Control::message_type`: raw message-type field, bits 4..=6. -/
def controlMessageTypeBits (c : Nat) : Nat := (c >>> 4) &&& 0x7

/-- `Control::set_acknak`: store bit 0. -/
def controlSetAcknak (c : Nat) (v : Bool) : Nat :=
  setBitRange c 0 0 (if v then 1 else 0)

/-- `Control::set_device_type`: store bits 1..=3. -/
def controlSetDeviceType (c v : Nat) : Nat := setBitRange c 3 1 v

/-- `Control::set_message_type`: store bits 4..=6. -/
def controlSetMessageType (c v : Nat) : Nat := setBitRange c 6 4 v

/-- The `AckNak` control field. -/
inductive AckNak where
  | ack
  | nak
deriving DecidableEq, Repr

/-- `From (bool) for AckNak`. -/
def AckNak.ofBool (b : Bool) : AckNak := if b then .nak else .ack

/-- `From (AckNak) for bool`. -/
def AckNak.toBool : AckNak → Bool
  | .ack => false
  | .nak => true

/-- The `DeviceType` control field. -/
inductive DeviceType where
  | billAcceptor
  | billRecycler
  | reserved
deriving DecidableEq, Repr

/-- The `repr(u8)` discriminant of `DeviceType`. -/
def DeviceType.code : DeviceType → Nat
  | .billAcceptor => 0
  | .billRecycler => 1
  | .reserved => 7

/-- `From (u8) for DeviceType`: decode through `bitmask::DEVICE_TYPE`. -/
def DeviceType.ofByte (b : Nat) : DeviceType :=
  match b &&& 0x7 with
  | 0 => .billAcceptor
  | 1 => .billRecycler
  | _ => .reserved

/-- The message-type class held in control-byte bits 4..=6. -/
inductive MessageType where
  | omnibusCommand
  | omnibusReply
  | omnibusBookmark
  | calibrate
  | firmwareDownload
  | auxCommand
  | extended
  | reserved
deriving DecidableEq, Repr

/-- The `repr(u8)` discriminant of `MessageType`. -/
def MessageType.code : MessageType → Nat
  | .omnibusCommand => 1
  | .omnibusReply => 2
  | .omnibusBookmark => 3
  | .calibrate => 4
  | .firmwareDownload => 5
  | .auxCommand => 6
  | .extended => 7
  | .reserved => 0xff

/-- `From (u8) for MessageType`: decode through `bitmask::MESSAGE_TYPE`;
any unmapped pattern is `Reserved`. -/
def MessageType.ofByte (b : Nat) : MessageType :=
  match b &&& 0x7 with
  | 1 => .omnibusCommand
  | 2 => .omnibusReply
  | 3 => .omnibusBookmark
  | 4 => .calibrate
  | 5 => .firmwareDownload
  | 6 => .auxCommand
  | 7 => .extended
  | _ => .reserved

/-!
The `MessageOps` trait. A concrete message is identified with its owned
byte buffer; the trait's provided methods become functions on buffers.
Accessors that index the internal buffer use `getD` because every
concrete message type owns a fixed-length buffer of at least 6 bytes,
so those reads are always in bounds in the source.
-/

/-- `MessageOps::acknak`: ACK/NAK field of the control byte. -/
def msgAcknak (buf : List Nat) : AckNak :=
  AckNak.ofBool (controlAcknak (buf.getD Index.CONTROL 0))

/-- `MessageOps::set_acknak`: rewrite the control byte with the new
ACK/NAK bit. -/
def msgSetAcknak (buf : List Nat) (acknak : AckNak) : List Nat :=
  buf.set Index.CONTROL (controlSetAcknak (buf.getD Index.CONTROL 0) acknak.toBool)

/-- `MessageOps::device_type`: device-type field of the control byte. -/
def msgDeviceType (buf : List Nat) : DeviceType :=
  DeviceType.ofByte (controlDeviceTypeBits (buf.getD Index.CONTROL 0))

/-- `MessageOps::set_device_type`: rewrite the control byte with the new
device-type bits. -/
def msgSetDeviceType (buf : List Nat) (deviceType : DeviceType) : List Nat :=
  buf.set Index.CONTROL (controlSetDeviceType (buf.getD Index.CONTROL 0) deviceType.code)

/-- `MessageOps::message_type`: message-type field of the control byte. -/
def msgMessageType (buf : List Nat) : MessageType :=
  MessageType.ofByte (controlMessageTypeBits (buf.getD Index.CONTROL 0))

/-- `MessageOps::set_message_type`: rewrite the control byte with the
new message-type bits. -/
def msgSetMessageType (buf : List Nat) (messageType : MessageType) : List Nat :=
  buf.set Index.CONTROL (controlSetMessageType (buf.getD Index.CONTROL 0) messageType.code)

/-- `MessageOps::checksum_bytes`: the slice from the LEN byte through
the byte before ETX, `buf[1 .. len - 2)`. -/
def msgChecksumBytes (buf : List Nat) : List Nat :=
  (buf.drop Index.LEN).take (buf.length - 2 - Index.LEN)

/-- `MessageOps::calculate_checksum`: compute the checksum and store it
at the last offset. -/
def msgCalculateChecksum (buf : List Nat) : List Nat :=
  buf.set (buf.length - 1) (checksum (msgChecksumBytes buf))

/-- `MessageOps::as_bytes`: calculate the checksum, then the buffer. -/
def msgAsBytes (buf : List Nat) : List Nat :=
  msgCalculateChecksum buf

/-- `MessageOps::init`: stamp STX at offset 0, the buffer's own length
(cast to a byte) at offset 1, and ETX at the second-to-last offset. -/
def msgInit (buf : List Nat) : List Nat :=
  ((buf.set Index.STX STX).set Index.LEN (buf.length % 256)).set (buf.length - 2) ETX

/-- The shared shape of every concrete reply constructor: a zeroed
buffer of the type's fixed length, `init()`, then the message-type
stamp. -/
def newMessage (L : Nat) (mt : MessageType) : List Nat :=
  msgSetMessageType (msgInit (List.replicate L 0)) mt

/-- `validate_checksum` (free function): global length gate, then the
XOR-fold over `buf[1 .. len - 2)` against the trailing byte. The two
reads are in bounds because the gate forces at least 5 bytes. -/
def validateChecksum (buf : List Nat) : Res Unit :=
  let n := buf.length
  if ¬(Len.MIN_MESSAGE ≤ n ∧ n ≤ Len.MAX_MESSAGE) then
    .err ("invalid message length")
  else
    let etxIndex := n - 2
    let chkIndex := n - 1
    let expected := checksum ((buf.drop Index.LEN).take (etxIndex - Index.LEN))
    let current := buf.getD chkIndex 0
    if expected = current then .ok () else .err ("invalid checksum")

/-- `MessageOps::from_buf`: the central validation gate. `self` is the
internal buffer of the concrete type, `buf` the external slice; on
success the result carries the new internal buffer (the copied first
`self.length` bytes), on failure the internal buffer stays untouched
because the source returns before its final `copy_from_slice`. -/
def msgFromBuf (self buf : List Nat) : Res (List Nat) :=
  if buf.length < self.length then .err ("invalid reply length") else
  Res.bind (idx buf Index.STX) fun stx =>
  if stx ≠ STX then .err ("invalid STX byte") else
  Res.bind (idx buf Index.LEN) fun msgLen =>
  if msgLen ≠ self.length then .err ("invalid reply length") else
  Res.bind (idx buf (msgLen - 2)) fun etx =>
  if etx ≠ ETX then .err ("invalid ETX byte") else
  Res.bind (validateChecksum (buf.take msgLen)) fun _ =>
  Res.bind (idx buf Index.CONTROL) fun controlByte =>
  let control := controlOfByte controlByte
  let msgType := MessageType.ofByte (controlMessageTypeBits control)
  let expMsgType := msgMessageType self
  if msgType ≠ expMsgType then .err ("invalid message type")
  else .ok (buf.take msgLen)

/-!
Extended command subtypes and the concrete reply constructors the
variant resolver instantiates.
-/

/-- The Extended message subtype byte (offset 3). -/
inductive ExtendedCommand where
  | extendedBarcodeReply
  | extendedNoteSpecification
  | setExtendedNoteInhibits
  | setEscrowTimeout
  | queryValueTable
  | noteRetrieved
  | advancedBookmark
  | clearAuditDataRequest
  | reserved
deriving DecidableEq, Repr

/-- The `repr(u8)` discriminant of `ExtendedCommand`. -/
def ExtendedCommand.code : ExtendedCommand → Nat
  | .extendedBarcodeReply => 0x1
  | .extendedNoteSpecification => 0x2
  | .setExtendedNoteInhibits => 0x3
  | .setEscrowTimeout => 0x4
  | .queryValueTable => 0x6
  | .noteRetrieved => 0xb
  | .advancedBookmark => 0xd
  | .clearAuditDataRequest => 0x1d
  | .reserved => 0xff

/-- `From (u8) for ExtendedCommand`. -/
def ExtendedCommand.ofByte (b : Nat) : ExtendedCommand :=
  match b with
  | 0x1 => .extendedBarcodeReply
  | 0x2 => .extendedNoteSpecification
  | 0x3 => .setExtendedNoteInhibits
  | 0x4 => .setEscrowTimeout
  | 0x6 => .queryValueTable
  | 0xb => .noteRetrieved
  | 0xd => .advancedBookmark
  | 0x1d => .clearAuditDataRequest
  | _ => .reserved

/-- `ExtendedCommandOps::set_extended_command`: store the subtype byte
at offset 3. -/
def setExtendedCommand (buf : List Nat) (cmd : ExtendedCommand) : List Nat :=
  buf.set Index.EXT_SUBTYPE cmd.code

/-- The shared shape of the Extended reply constructors: `newMessage`
with class `Extended` plus the subtype stamp. -/
def newExtendedReply (L : Nat) (cmd : ExtendedCommand) : List Nat :=
  setExtendedCommand (newMessage L MessageType.extended) cmd

def OmnibusReply.new : List Nat :=
  newMessage Len.OMNIBUS_REPLY MessageType.omnibusReply

def BaudRateChangeReply.new : List Nat :=
  newMessage Len.BAUD_CHANGE_REPLY MessageType.firmwareDownload

def StartDownloadReply.new : List Nat :=
  newMessage Len.START_DOWNLOAD_REPLY MessageType.firmwareDownload

def FlashDownloadReply7bit.new : List Nat :=
  newMessage Len.FLASH_DOWNLOAD_REPLY_7BIT MessageType.firmwareDownload

def FlashDownloadReply8bit.new : List Nat :=
  newMessage Len.FLASH_DOWNLOAD_REPLY_8BIT MessageType.firmwareDownload

def ClearAuditDataRequestAck.new : List Nat :=
  newExtendedReply Len.CLEAR_AUDIT_DATA_REQUEST_ACK ExtendedCommand.clearAuditDataRequest

def ClearAuditDataRequestResults.new : List Nat :=
  newExtendedReply Len.CLEAR_AUDIT_DATA_REQUEST_RESULTS ExtendedCommand.clearAuditDataRequest

def ExtendedNoteReply.new : List Nat :=
  newExtendedReply Len.EXTENDED_NOTE_REPLY ExtendedCommand.extendedNoteSpecification

def ExtendedNoteInhibitsReplyAlt.new : List Nat :=
  newExtendedReply Len.EXTENDED_NOTE_INHIBITS_REPLY_ALT ExtendedCommand.setExtendedNoteInhibits

def QueryValueTableReply.new : List Nat :=
  newExtendedReply Len.QUERY_VALUE_TABLE_REPLY ExtendedCommand.queryValueTable

def AdvancedBookmarkModeReply.new : List Nat :=
  newExtendedReply Len.ADVANCED_BOOKMARK_MODE_REPLY ExtendedCommand.advancedBookmark

def NoteRetrievedReply.new : List Nat :=
  newExtendedReply Len.NOTE_RETRIEVED_REPLY ExtendedCommand.noteRetrieved

-- NoteRetrievedEvent::new additionally stamps the event byte 0x7f at offset 10.
def NoteRetrievedEvent.new : List Nat :=
  (newExtendedReply Len.NOTE_RETRIEVED_EVENT ExtendedCommand.noteRetrieved).set 10 0x7f

-- note_retrieved::reply::index: ACK/NAK-or-event byte offset.
namespace NoteRetrievedIndex

def ACKNAK : Nat := 10
def EVENT : Nat := 10

end NoteRetrievedIndex

/-- The reply variant tagged union, each case wrapping the owned buffer
of the concrete type. -/
inductive MessageVariant where
  | omnibusReply (msg : List Nat)
  | advancedBookmarkModeReply (msg : List Nat)
  | clearAuditDataRequestAck (msg : List Nat)
  | clearAuditDataRequestResults (msg : List Nat)
  | extendedNoteReply (msg : List Nat)
  | extendedNoteInhibitsReplyAlt (msg : List Nat)
  | noteRetrievedReply (msg : List Nat)
  | noteRetrievedEvent (msg : List Nat)
  | queryValueTableReply (msg : List Nat)
  | setEscrowTimeoutReply (msg : List Nat)
  | querySoftwareCrcReply (msg : List Nat)
  | queryBootPartNumberReply (msg : List Nat)
  | queryApplicationPartNumberReply (msg : List Nat)
  | queryVariantNameReply (msg : List Nat)
  | queryVariantPartNumberReply (msg : List Nat)
  | queryDeviceCapabilitiesReply (msg : List Nat)
  | queryApplicationIdReply (msg : List Nat)
  | queryVariantIdReply (msg : List Nat)
  | baudRateChangeReply (msg : List Nat)
  | flashDownloadReply7bit (msg : List Nat)
  | flashDownloadReply8bit (msg : List Nat)
  | startDownloadReply (msg : List Nat)
deriving DecidableEq, Repr

/-- `MessageVariant::from_buf`: the reply variant resolver. Global
length gate, message-type class from the control byte, then length or
subtype heuristics; the selected concrete type performs its own
`from_buf` validation. The `buf[10]` read in the ClearAuditDataRequest
branch mirrors the source exactly: it is not guarded by a length
check. -/
def variantFromBuf (buf : List Nat) : Res MessageVariant :=
  let msgLen := buf.length
  if ¬(Len.MIN_MESSAGE ≤ msgLen ∧ msgLen ≤ Len.MAX_MESSAGE) then
    .err ("invalid message length")
  else
  Res.bind (idx buf Index.CONTROL) fun controlByte =>
  let control := controlOfByte controlByte
  let msgType := MessageType.ofByte (controlMessageTypeBits control)
  match msgType with
  | .omnibusReply =>
    Res.map MessageVariant.omnibusReply (msgFromBuf OmnibusReply.new buf)
  | .firmwareDownload =>
    if msgLen = Len.BAUD_CHANGE_REPLY then
      Res.map MessageVariant.baudRateChangeReply (msgFromBuf BaudRateChangeReply.new buf)
    else if msgLen = Len.START_DOWNLOAD_REPLY then
      Res.map MessageVariant.startDownloadReply (msgFromBuf StartDownloadReply.new buf)
    else if msgLen = Len.FLASH_DOWNLOAD_REPLY_7BIT then
      Res.map MessageVariant.flashDownloadReply7bit (msgFromBuf FlashDownloadReply7bit.new buf)
    else if msgLen = Len.FLASH_DOWNLOAD_REPLY_8BIT then
      Res.map MessageVariant.flashDownloadReply8bit (msgFromBuf FlashDownloadReply8bit.new buf)
    else .err ("unsupported FirmwareDownload reply message length")
  | .extended =>
    Res.bind (idx buf Index.EXT_SUBTYPE) fun rawSubType =>
    let subType := ExtendedCommand.ofByte rawSubType
    match subType with
    | .clearAuditDataRequest =>
      Res.bind (idx buf 10) fun cadReplyDiff =>
      if cadReplyDiff = 0x00 ∨ cadReplyDiff = 0x01 then
        Res.map MessageVariant.clearAuditDataRequestAck
          (msgFromBuf ClearAuditDataRequestAck.new buf)
      else if cadReplyDiff = 0x10 ∨ cadReplyDiff = 0x11 then
        Res.map MessageVariant.clearAuditDataRequestResults
          (msgFromBuf ClearAuditDataRequestResults.new buf)
      else .err ("invalid ClearAuditDataRequest reply type")
    | .extendedNoteSpecification =>
      Res.map MessageVariant.extendedNoteReply (msgFromBuf ExtendedNoteReply.new buf)
    | .setExtendedNoteInhibits =>
      Res.map MessageVariant.extendedNoteInhibitsReplyAlt
        (msgFromBuf ExtendedNoteInhibitsReplyAlt.new buf)
    | .queryValueTable =>
      Res.map MessageVariant.queryValueTableReply (msgFromBuf QueryValueTableReply.new buf)
    | .noteRetrieved =>
      if buf.length < Len.NOTE_RETRIEVED_REPLY then
        .err ("invalid message length for a NoteRetrieved reply")
      else
        Res.bind (idx buf NoteRetrievedIndex.ACKNAK) fun acknakEvent =>
        match acknakEvent with
        | 0x00 => Res.map MessageVariant.noteRetrievedReply (msgFromBuf NoteRetrievedReply.new buf)
        | 0x01 => Res.map MessageVariant.noteRetrievedReply (msgFromBuf NoteRetrievedReply.new buf)
        | 0x7f => Res.map MessageVariant.noteRetrievedEvent (msgFromBuf NoteRetrievedEvent.new buf)
        | _ => .err ("invalid AckNak/Event value")
    | .advancedBookmark =>
      Res.map MessageVariant.advancedBookmarkModeReply
        (msgFromBuf AdvancedBookmarkModeReply.new buf)
    | _ => .err ("unsupported extended message type")
  | _ => .err ("expected Omnibus or Extended reply types")

/-!
The seven-bit protocol pack/unpack helpers for the legacy firmware
download transport.
-/

/-- `seven_bit_u16`: build a 16-bit number from a 4-byte slice, each
byte carrying 4 significant bits in its low nibble, most significant
nibble first. -/
def seven_bit_u16 (b : List Nat) : Nat :=
  let hi := ((b.getD 0 0 &&& 0xf) <<< 4) ||| (b.getD 1 0 &&& 0xf)
  let lo := ((b.getD 2 0 &&& 0xf) <<< 4) ||| (b.getD 3 0 &&& 0xf)
  (hi <<< 8) ||| lo

/-- `u16_seven_bit`: split a 16-bit number into its big-endian bytes and
spread each byte across two nibbles. The `&&& 0xff` writes out the
`u16 -> u8` byte extraction explicitly. -/
def u16_seven_bit (n : Nat) : List Nat :=
  let b0 := (n >>> 8) &&& 0xff
  let b1 := n &&& 0xff
  [b0 >>> 4, b0 &&& 0xf, b1 >>> 4, b1 &&& 0xf]

/-- `seven_bit_u8`: build an 8-bit number from a 2-byte slice, each byte
carrying 4 significant bits in its low nibble. -/
def seven_bit_u8 (b : List Nat) : Nat :=
  ((b.getD 0 0 &&& 0xf) <<< 4) ||| (b.getD 1 0 &&& 0xf)

/-- `u8_seven_bit`: split an 8-bit number across two low nibbles. -/
def u8_seven_bit (n : Nat) : List Nat :=
  [n >>> 4, n &&& 0xf]

/-!
Proof infrastructure: evaluation lemmas for the `Res` monad, slice
indexing, and the checksum window.
-/

@[simp] theorem Res.bind_ok {α β : Type} (a : α) (f : α → Res β) :
    Res.bind (Res.ok a) f = f a := rfl

@[simp] theorem Res.bind_err {α β : Type} (e : String) (f : α → Res β) :
    Res.bind (Res.err e) f = Res.err e := rfl

@[simp] theorem Res.bind_panic {α β : Type} (f : α → Res β) :
    Res.bind (Res.panic) f = Res.panic := rfl

@[simp] theorem Res.map_ok {α β : Type} (f : α → β) (a : α) :
    Res.map f (Res.ok a) = Res.ok (f a) := rfl

@[simp] theorem Res.map_err {α β : Type} (f : α → β) (e : String) :
    Res.map f (Res.err e) = Res.err e := rfl

@[simp] theorem Res.map_panic {α β : Type} (f : α → β) :
    Res.map f (Res.panic : Res α) = Res.panic := rfl

theorem idx_eq_ok {buf : List Nat} {i : Nat} (h : i < buf.length) :
    idx buf i = Res.ok (buf.getD i 0) := by
  simp [idx, List.get?_eq_getElem?, List.getElem?_eq_getElem h]

theorem idx_eq_panic {buf : List Nat} {i : Nat} (h : buf.length ≤ i) :
    idx buf i = Res.panic := by
  simp [idx, List.get?_eq_getElem?, List.getElem?_eq_none h]

theorem take_drop_one_take (buf : List Nat) (L k : Nat) (hk : k ≤ L - 1) :
    ((buf.take L).drop 1).take k = (buf.drop 1).take k := by
  apply List.ext_getElem?
  intro i
  by_cases hik : i < k
  · rw [List.getElem?_take_of_lt hik, List.getElem?_take_of_lt hik,
      List.getElem?_drop, List.getElem?_drop, List.getElem?_take_of_lt (by omega)]
  · rw [List.getElem?_eq_none (by simp [List.length_take]; omega),
      List.getElem?_eq_none (by simp [List.length_take]; omega)]

theorem getD_take_of_lt (buf : List Nat) {i n : Nat} (h : i < n) :
    (buf.take n).getD i 0 = buf.getD i 0 := by
  simp [List.getD_eq_getElem?_getD, List.getElem?_take_of_lt h]

/-- Evaluating `validate_checksum` on the first `L` bytes of an
at-least-`L`-byte slice, with `L` inside the global bounds. -/
theorem validateChecksum_take (buf : List Nat) (L : Nat)
    (h5 : 5 ≤ L) (h255 : L ≤ 255) (hL : L ≤ buf.length) :
    validateChecksum (buf.take L) =
      if checksum ((buf.drop 1).take (L - 3)) = buf.getD (L - 1) 0 then Res.ok ()
      else Res.err ("invalid checksum") := by
  have hlen : (buf.take L).length = L := by
    simp [List.length_take]
    omega
  have hwin : ((buf.take L).drop Index.LEN).take (L - 2 - Index.LEN) =
      (buf.drop 1).take (L - 3) := by
    have := take_drop_one_take buf L (L - 3) (by omega)
    simpa [Index.LEN, show L - 2 - 1 = L - 3 by omega] using this
  have hcur : (buf.take L).getD (L - 1) 0 = buf.getD (L - 1) 0 :=
    getD_take_of_lt buf (by omega)
  simp only [validateChecksum, hlen, hwin, hcur]
  rw [if_neg (not_not_intro ⟨h5, h255⟩)]

/-- The full characterisation of the generic deserialization gate
`MessageOps::from_buf`: it succeeds exactly when the six validation
steps hold, the success payload is the copied first `L` bytes of the
external slice, and it never panics. Shared backbone for the
individual claims. -/
theorem msgFromBuf_spec (self buf : List Nat)
    (h5 : 5 ≤ self.length) (h255 : self.length ≤ 255) :
    (msgFromBuf self buf = Res.ok (buf.take self.length) ↔
      (self.length ≤ buf.length ∧
       buf.getD 0 0 = STX ∧
       buf.getD 1 0 = self.length ∧
       buf.getD (self.length - 2) 0 = ETX ∧
       checksum ((buf.drop 1).take (self.length - 3)) = buf.getD (self.length - 1) 0 ∧
       MessageType.ofByte (controlMessageTypeBits (controlOfByte (buf.getD 2 0))) =
         msgMessageType self))
    ∧ (∀ out, msgFromBuf self buf = Res.ok out → out = buf.take self.length)
    ∧ msgFromBuf self buf ≠ Res.panic := by
  by_cases hlen : buf.length < self.length
  · have hres : msgFromBuf self buf = Res.err ("invalid reply length") := by
      simp only [msgFromBuf, if_pos hlen]
    refine ⟨?_, ?_, ?_⟩
    · rw [hres]
      exact iff_of_false (fun h => Res.noConfusion h) (fun hc => absurd hc.1 (by omega))
    · intro out h
      rw [hres] at h
      exact Res.noConfusion h
    · rw [hres]
      exact fun h => Res.noConfusion h
  · push_neg at hlen
    have h0 := @idx_eq_ok buf (0) (by omega)
    have h1 := @idx_eq_ok buf (1) (by omega)
    have h2 := @idx_eq_ok buf (2) (by omega)
    have hnlt : ¬buf.length < self.length := Nat.not_lt.mpr hlen
    by_cases hstx : buf.getD 0 0 = STX
    · by_cases hlenb : buf.getD 1 0 = self.length
      · have hetxread := @idx_eq_ok buf (self.length - 2) (by omega)
        have hval := validateChecksum_take buf self.length h5 h255 hlen
        by_cases hetx : buf.getD (self.length - 2) 0 = ETX
        · by_cases hchk :
            checksum ((buf.drop 1).take (self.length - 3)) = buf.getD (self.length - 1) 0
          · by_cases hmt :
              MessageType.ofByte (controlMessageTypeBits (controlOfByte (buf.getD 2 0))) =
                msgMessageType self
            · have hres : msgFromBuf self buf = Res.ok (buf.take self.length) := by
                simp only [msgFromBuf, Index.STX, Index.LEN, Index.CONTROL]
                rw [if_neg hnlt, h0]
                simp only [Res.bind_ok]
                rw [if_neg (not_not_intro hstx), h1]
                simp only [Res.bind_ok]
                rw [if_neg (not_not_intro hlenb), hlenb, hetxread]
                simp only [Res.bind_ok]
                rw [if_neg (not_not_intro hetx), hval, if_pos hchk]
                simp only [Res.bind_ok]
                rw [h2]
                simp only [Res.bind_ok]
                rw [if_neg (not_not_intro hmt)]
              rw [hres]
              refine ⟨iff_of_true rfl ⟨hlen, hstx, hlenb, hetx, hchk, hmt⟩, ?_,
                fun h => Res.noConfusion h⟩
              intro out h
              injection h with h
              exact h.symm
            · have hres : msgFromBuf self buf = Res.err ("invalid message type") := by
                simp only [msgFromBuf, Index.STX, Index.LEN, Index.CONTROL]
                rw [if_neg hnlt, h0]
                simp only [Res.bind_ok]
                rw [if_neg (not_not_intro hstx), h1]
                simp only [Res.bind_ok]
                rw [if_neg (not_not_intro hlenb), hlenb, hetxread]
                simp only [Res.bind_ok]
                rw [if_neg (not_not_intro hetx), hval, if_pos hchk]
                simp only [Res.bind_ok]
                rw [h2]
                simp only [Res.bind_ok]
                rw [if_pos hmt]
              rw [hres]
              refine ⟨iff_of_false (fun h => Res.noConfusion h)
                (fun hc => absurd hc.2.2.2.2.2 hmt), ?_, fun h => Res.noConfusion h⟩
              intro out h
              exact Res.noConfusion h
          · have hres : msgFromBuf self buf = Res.err ("invalid checksum") := by
              simp only [msgFromBuf, Index.STX, Index.LEN, Index.CONTROL]
              rw [if_neg hnlt, h0]
              simp only [Res.bind_ok]
              rw [if_neg (not_not_intro hstx), h1]
              simp only [Res.bind_ok]
              rw [if_neg (not_not_intro hlenb), hlenb, hetxread]
              simp only [Res.bind_ok]
              rw [if_neg (not_not_intro hetx), hval, if_neg hchk]
              simp only [Res.bind_err]
            rw [hres]
            refine ⟨iff_of_false (fun h => Res.noConfusion h)
              (fun hc => absurd hc.2.2.2.2.1 hchk), ?_, fun h => Res.noConfusion h⟩
            intro out h
            exact Res.noConfusion h
        · have hres : msgFromBuf self buf = Res.err ("invalid ETX byte") := by
            simp only [msgFromBuf, Index.STX, Index.LEN, Index.CONTROL]
            rw [if_neg hnlt, h0]
            simp only [Res.bind_ok]
            rw [if_neg (not_not_intro hstx), h1]
            simp only [Res.bind_ok]
            rw [if_neg (not_not_intro hlenb), hlenb, hetxread]
            simp only [Res.bind_ok]
            rw [if_pos hetx]
          rw [hres]
          refine ⟨iff_of_false (fun h => Res.noConfusion h)
            (fun hc => absurd hc.2.2.2.1 hetx), ?_, fun h => Res.noConfusion h⟩
          intro out h
          exact Res.noConfusion h
      · have hres : msgFromBuf self buf = Res.err ("invalid reply length") := by
          simp only [msgFromBuf, Index.STX, Index.LEN, Index.CONTROL]
          rw [if_neg hnlt, h0]
          simp only [Res.bind_ok]
          rw [if_neg (not_not_intro hstx), h1]
          simp only [Res.bind_ok]
          rw [if_pos hlenb]
        rw [hres]
        refine ⟨iff_of_false (fun h => Res.noConfusion h)
          (fun hc => absurd hc.2.2.1 hlenb), ?_, fun h => Res.noConfusion h⟩
        intro out h
        exact Res.noConfusion h
    · have hres : msgFromBuf self buf = Res.err ("invalid STX byte") := by
        simp only [msgFromBuf, Index.STX, Index.LEN, Index.CONTROL]
        rw [if_neg hnlt, h0]
        simp only [Res.bind_ok]
        rw [if_pos hstx]
      rw [hres]
      refine ⟨iff_of_false (fun h => Res.noConfusion h)
        (fun hc => absurd hc.2.1 hstx), ?_, fun h => Res.noConfusion h⟩
      intro out h
      exact Res.noConfusion h

theorem getD_set_ne (l : List Nat) {i j : Nat} (v : Nat) (h : i ≠ j) :
    (l.set i v).getD j 0 = l.getD j 0 := by
  simp [List.getD_eq_getElem?_getD, List.getElem?_set_ne h]

theorem getD_set_self (l : List Nat) {i : Nat} (v : Nat) (h : i < l.length) :
    (l.set i v).getD i 0 = v := by
  simp [List.getD_eq_getElem?_getD, List.getElem?_set_self h]

theorem getD_replicate_zero (L i : Nat) : (List.replicate L (0 : Nat)).getD i 0 = 0 := by
  simp [List.getD_eq_getElem?_getD, List.getElem?_replicate]
  split <;> rfl

theorem take_drop_one_set_high (m : List Nat) (j c k : Nat) (hjk : k < j) :
    ((m.set j c).drop 1).take k = (m.drop 1).take k := by
  apply List.ext_getElem?
  intro i
  by_cases hik : i < k
  · rw [List.getElem?_take_of_lt hik, List.getElem?_take_of_lt hik,
      List.getElem?_drop, List.getElem?_drop, List.getElem?_set_ne (by omega)]
  · rw [List.getElem?_eq_none (by simp [List.length_take]; omega),
      List.getElem?_eq_none (by simp [List.length_take]; omega)]

/-- Masking off bit 7 does not change the message-type field held at
bits 4..=6. -/
theorem controlMessageTypeBits_mask (b : Nat) :
    controlMessageTypeBits (controlOfByte b) = controlMessageTypeBits b := by
  apply Nat.eq_of_testBit_eq
  intro i
  simp only [controlMessageTypeBits, controlOfByte, Nat.testBit_and, Nat.testBit_shiftRight]
  match i with
  | 0 => simp [show Nat.testBit 127 4 = true from by decide]
  | 1 => simp [show Nat.testBit 127 5 = true from by decide]
  | 2 => simp [show Nat.testBit 127 6 = true from by decide]
  | i + 3 =>
    have h7 : Nat.testBit 7 (i + 3) = false :=
      Nat.testBit_lt_two_pow (by
        calc (7 : Nat) < 2 ^ 3 := by norm_num
        _ ≤ 2 ^ (i + 3) := Nat.pow_le_pow_right (by norm_num) (by omega))
    simp [h7]

/-- The envelope `new()` stamps: correct length, STX, LEN byte, ETX, and
the message-type class, with everything else zeroed. -/
theorem newMessage_envelope (L : Nat) (mt : MessageType)
    (h5 : 5 ≤ L) (h255 : L ≤ 255) (hmtr : mt ≠ MessageType.reserved) :
    (newMessage L mt).length = L
    ∧ (newMessage L mt).getD 0 0 = STX
    ∧ (newMessage L mt).getD 1 0 = L
    ∧ (newMessage L mt).getD (L - 2) 0 = ETX
    ∧ msgMessageType (newMessage L mt) = mt := by
  have hlenrep : (List.replicate L (0 : Nat)).length = L := by simp
  have hL : (newMessage L mt).length = L := by
    simp [newMessage, msgSetMessageType, msgInit]
  refine ⟨hL, ?_, ?_, ?_, ?_⟩
  · simp only [newMessage, msgSetMessageType, msgInit, Index.CONTROL, Index.STX, Index.LEN,
      hlenrep, List.length_set]
    rw [getD_set_ne _ _ (by omega), getD_set_ne _ _ (by omega), getD_set_ne _ _ (by omega),
      getD_set_self _ _ (by omega)]
  · simp only [newMessage, msgSetMessageType, msgInit, Index.CONTROL, Index.STX, Index.LEN,
      hlenrep, List.length_set]
    rw [getD_set_ne _ _ (by omega), getD_set_ne _ _ (by omega),
      getD_set_self _ _ (by simp; omega)]
    omega
  · simp only [newMessage, msgSetMessageType, msgInit, Index.CONTROL, Index.STX, Index.LEN,
      hlenrep, List.length_set]
    rw [getD_set_ne _ _ (by omega), getD_set_self _ _ (by simp; omega)]
  · have hc : (newMessage L mt).getD 2 0 = controlSetMessageType 0 mt.code := by
      simp only [newMessage, msgSetMessageType, msgInit, Index.CONTROL, Index.STX, Index.LEN,
        hlenrep, List.length_set]
      rw [getD_set_self _ _ (by simp; omega), getD_set_ne _ _ (by omega),
        getD_set_ne _ _ (by omega), getD_set_ne _ _ (by omega), getD_replicate_zero]
    simp only [msgMessageType, Index.CONTROL, hc]
    cases mt <;> first
      | rfl
      | decide
      | exact absurd rfl hmtr

/-- Claim C2: for a concrete message type of fixed length `L` (between
5 and 255, as every concrete type is), `MessageOps::from_buf` returns
`Ok` if and only if the external slice is at least `L` bytes, starts
with STX, carries LEN byte `L`, has ETX at `L - 2`, has a matching XOR
checksum over bytes `1 .. L - 2` against byte `L - 1`, and decodes to
the type's expected message-type class; on success the internal buffer
becomes the first `L` bytes of the slice, and on failure the slice is
rejected with an error before the buffer is overwritten. -/
theorem from_buf_validation_gate (self buf : List Nat)
    (h5 : 5 ≤ self.length) (h255 : self.length ≤ 255) :
    (msgFromBuf self buf = Res.ok (buf.take self.length) ↔
      (self.length ≤ buf.length ∧
       buf.getD 0 0 = STX ∧
       buf.getD 1 0 = self.length ∧
       buf.getD (self.length - 2) 0 = ETX ∧
       checksum ((buf.drop 1).take (self.length - 3)) = buf.getD (self.length - 1) 0 ∧
       MessageType.ofByte (controlMessageTypeBits (controlOfByte (buf.getD 2 0))) =
         msgMessageType self))
    ∧ (∀ out, msgFromBuf self buf = Res.ok out → out = buf.take self.length)
    ∧ msgFromBuf self buf ≠ Res.panic :=
  msgFromBuf_spec self buf h5 h255

/-- Witness for C2 at a concrete valid Omnibus reply frame. -/
theorem from_buf_validation_gate_witness :
    msgFromBuf OmnibusReply.new [2, 11, 32, 0, 0, 0, 0, 0, 0, 3, 43] =
      Res.ok ([2, 11, 32, 0, 0, 0, 0, 0, 0, 3, 43].take OmnibusReply.new.length) := by
  have h := from_buf_validation_gate OmnibusReply.new
    [2, 11, 32, 0, 0, 0, 0, 0, 0, 3, 43] (by decide) (by decide)
  exact h.1.mpr (by decide)

/-- Counterexample for C3: a slice of length `L + 1` whose first `L`
bytes form a valid frame is accepted, not rejected, by
`MessageOps::from_buf` (the source only rejects slices shorter than
`L`). -/
theorem from_buf_accepts_trailing_byte :
    OmnibusReply.new.length = 11 ∧
    msgFromBuf OmnibusReply.new [2, 11, 32, 0, 0, 0, 0, 0, 0, 3, 43, 0] =
      Res.ok [2, 11, 32, 0, 0, 0, 0, 0, 0, 3, 43] := by decide

/-- Claim C3 (amended): `from_buf` on a type of fixed size `L` fails
without panicking on every slice of length `L - 1`; it fails on a slice
of length `L + 1` or of length `L` whenever the LEN byte at index 1
differs from `L`. -/
theorem from_buf_length_rejection (self buf : List Nat)
    (h5 : 5 ≤ self.length) (h255 : self.length ≤ 255) :
    (buf.length = self.length - 1 → ∃ e, msgFromBuf self buf = Res.err e)
    ∧ (buf.length = self.length + 1 → buf.getD 1 0 ≠ self.length →
        ∃ e, msgFromBuf self buf = Res.err e)
    ∧ (buf.length = self.length → buf.getD 1 0 ≠ self.length →
        ∃ e, msgFromBuf self buf = Res.err e) := by
  obtain ⟨hiff, hout, hpanic⟩ := msgFromBuf_spec self buf h5 h255
  have herr : buf.getD 1 0 ≠ self.length → ∃ e, msgFromBuf self buf = Res.err e := by
    intro hne
    cases hres : msgFromBuf self buf with
    | ok out =>
      have hpay := hout out hres
      rw [hpay] at hres
      exact absurd (hiff.mp hres).2.2.1 hne
    | err e => exact ⟨e, rfl⟩
    | panic => exact absurd hres hpanic
  refine ⟨?_, fun _ => herr, fun _ => herr⟩
  intro hshort
  have : msgFromBuf self buf = Res.err ("invalid reply length") := by
    simp only [msgFromBuf, if_pos (show buf.length < self.length by omega)]
  exact ⟨_, this⟩

/-- Witness for C3 at concrete inputs of length `L - 1`, `L + 1` and
`L` against the 11-byte Omnibus reply type. -/
theorem from_buf_length_rejection_witness :
    (∃ e, msgFromBuf OmnibusReply.new (List.replicate 10 0) = Res.err e)
    ∧ (∃ e, msgFromBuf OmnibusReply.new [2, 12, 32, 0, 0, 0, 0, 0, 0, 3, 43, 0] = Res.err e)
    ∧ (∃ e, msgFromBuf OmnibusReply.new [2, 12, 32, 0, 0, 0, 0, 0, 0, 3, 43] = Res.err e) := by
  refine ⟨?_, ?_, ?_⟩
  · exact (from_buf_length_rejection OmnibusReply.new (List.replicate 10 0)
      (by decide) (by decide)).1 (by decide)
  · exact (from_buf_length_rejection OmnibusReply.new _
      (by decide) (by decide)).2.1 (by decide) (by decide)
  · exact (from_buf_length_rejection OmnibusReply.new _
      (by decide) (by decide)).2.2 (by decide) (by decide)

/-- Claim C4: the wire round-trip. A message of fixed length `L` whose
envelope is the one `new()` stamps (STX, LEN byte `L`, ETX, a
non-reserved message-type class) and whose other bytes were set
arbitrarily through the setters, once checksummed by `as_bytes`,
deserializes successfully through `from_buf` into a fresh instance of
the same type, yielding exactly the encoded bytes; and `new()` itself
always produces such a self-consistent envelope. -/
theorem message_roundtrip (L : Nat) (mt : MessageType) (m : List Nat)
    (h5 : 5 ≤ L) (h255 : L ≤ 255) (hmtr : mt ≠ MessageType.reserved)
    (hm : m.length = L)
    (hstx : m.getD 0 0 = STX)
    (hlenb : m.getD 1 0 = L)
    (hetx : m.getD (L - 2) 0 = ETX)
    (hmt : msgMessageType m = mt) :
    ((newMessage L mt).length = L
      ∧ (newMessage L mt).getD 0 0 = STX
      ∧ (newMessage L mt).getD 1 0 = L
      ∧ (newMessage L mt).getD (L - 2) 0 = ETX
      ∧ msgMessageType (newMessage L mt) = mt)
    ∧ msgFromBuf (newMessage L mt) (msgAsBytes m) = Res.ok (msgAsBytes m)
    ∧ (∀ i, i ≠ L - 1 → (msgAsBytes m).getD i 0 = m.getD i 0) := by
  obtain ⟨hL, hnstx, hnlen, hnetx, hnmt⟩ := newMessage_envelope L mt h5 h255 hmtr
  have hab : msgAsBytes m = m.set (L - 1) (checksum ((m.drop 1).take (L - 3))) := by
    simp only [msgAsBytes, msgCalculateChecksum, msgChecksumBytes, Index.LEN, hm,
      show L - 2 - 1 = L - 3 from by omega]
  have hablen : (msgAsBytes m).length = L := by
    rw [hab]
    simp [hm]
  have hfields : ∀ i, i ≠ L - 1 → (msgAsBytes m).getD i 0 = m.getD i 0 := by
    intro i hi
    rw [hab, getD_set_ne _ _ (fun h => hi h.symm)]
  have hwin : ((msgAsBytes m).drop 1).take (L - 3) = (m.drop 1).take (L - 3) := by
    rw [hab]
    exact take_drop_one_set_high m (L - 1) _ (L - 3) (by omega)
  have hchkbyte : (msgAsBytes m).getD (L - 1) 0 = checksum ((m.drop 1).take (L - 3)) := by
    rw [hab]
    exact getD_set_self _ _ (by omega)
  refine ⟨⟨hL, hnstx, hnlen, hnetx, hnmt⟩, ?_, hfields⟩
  have hspec := (msgFromBuf_spec (newMessage L mt) (msgAsBytes m) (by omega) (by omega)).1
  have htake : (msgAsBytes m).take (newMessage L mt).length = msgAsBytes m := by
    rw [hL]
    exact List.take_of_length_le (by omega)
  suffices h : msgFromBuf (newMessage L mt) (msgAsBytes m) =
      Res.ok ((msgAsBytes m).take (newMessage L mt).length) by
    rw [htake] at h
    exact h
  apply hspec.mpr
  refine ⟨by omega, ?_, ?_, ?_, ?_, ?_⟩
  · rw [hfields 0 (by omega), hstx]
  · rw [hL, hfields 1 (by omega), hlenb]
  · rw [hL, hfields (L - 2) (by omega), hetx]
  · rw [hL, hwin, hchkbyte]
  · rw [hfields 2 (by omega), hnmt, ← hmt]
    simp only [msgMessageType, Index.CONTROL]
    rw [controlMessageTypeBits_mask]

/-- Witness for C4: a fresh 11-byte Omnibus reply with its ACK/NAK flag
set decodes back to its own encoded bytes. -/
theorem message_roundtrip_witness :
    msgFromBuf (newMessage 11 MessageType.omnibusReply)
        (msgAsBytes (msgSetAcknak (newMessage 11 MessageType.omnibusReply) AckNak.nak)) =
      Res.ok (msgAsBytes (msgSetAcknak (newMessage 11 MessageType.omnibusReply) AckNak.nak)) :=
  (message_roundtrip 11 MessageType.omnibusReply
    (msgSetAcknak (newMessage 11 MessageType.omnibusReply) AckNak.nak)
    (by decide) (by decide) (by decide) (by decide) (by decide) (by decide) (by decide)
    (by decide)).2.1

/-- Claim C1: the reply variant resolver is expected never to panic on
arbitrary byte input, but the ClearAuditDataRequest branch reads byte
10 with no length guard (unlike the NoteRetrieved branch right below
it, which checks the length first). On the 5-byte Extended-class buffer
with subtype byte `0x1D` below — which passes the global
`MIN_MESSAGE = 5` length gate — the resolver performs an out-of-bounds
slice index, i.e. the Rust code panics instead of returning a typed
error. -/
theorem clear_audit_short_buffer_panics :
    variantFromBuf [0x02, 0x05, 0x70, 0x1d, 0x00] = Res.panic := by rfl

/-- Claim C6: for a FirmwareDownload-class buffer inside the global
length bounds, the resolver picks the concrete reply purely by total
buffer length: 6 is a baud-rate-change reply, 11 a start-download
reply, 9 a 7-bit flash-download reply, 7 an 8-bit flash-download reply,
and every other length is an error. -/
theorem firmware_download_length_dispatch (buf : List Nat)
    (hmin : 5 ≤ buf.length) (hmax : buf.length ≤ 255)
    (hfw : MessageType.ofByte (controlMessageTypeBits (controlOfByte (buf.getD 2 0))) =
      MessageType.firmwareDownload) :
    (buf.length = 6 → variantFromBuf buf =
      Res.map MessageVariant.baudRateChangeReply (msgFromBuf BaudRateChangeReply.new buf))
    ∧ (buf.length = 11 → variantFromBuf buf =
      Res.map MessageVariant.startDownloadReply (msgFromBuf StartDownloadReply.new buf))
    ∧ (buf.length = 9 → variantFromBuf buf =
      Res.map MessageVariant.flashDownloadReply7bit (msgFromBuf FlashDownloadReply7bit.new buf))
    ∧ (buf.length = 7 → variantFromBuf buf =
      Res.map MessageVariant.flashDownloadReply8bit (msgFromBuf FlashDownloadReply8bit.new buf))
    ∧ (buf.length ≠ 6 → buf.length ≠ 11 → buf.length ≠ 9 → buf.length ≠ 7 →
        ∃ e, variantFromBuf buf = Res.err e) := by
  have h2 := @idx_eq_ok buf (2) (by omega)
  have hgate : ¬¬(Len.MIN_MESSAGE ≤ buf.length ∧ buf.length ≤ Len.MAX_MESSAGE) :=
    not_not_intro ⟨hmin, hmax⟩
  refine ⟨?_, ?_, ?_, ?_, ?_⟩
  · intro h6
    simp only [variantFromBuf, Len.BAUD_CHANGE_REPLY, Len.START_DOWNLOAD_REPLY,
      Len.FLASH_DOWNLOAD_REPLY_7BIT, Len.FLASH_DOWNLOAD_REPLY_8BIT, Index.CONTROL]
    rw [if_neg hgate, h2]
    simp only [Res.bind_ok, hfw]
    rw [if_pos h6]
  · intro h11
    simp only [variantFromBuf, Len.BAUD_CHANGE_REPLY, Len.START_DOWNLOAD_REPLY,
      Len.FLASH_DOWNLOAD_REPLY_7BIT, Len.FLASH_DOWNLOAD_REPLY_8BIT, Index.CONTROL]
    rw [if_neg hgate, h2]
    simp only [Res.bind_ok, hfw]
    rw [if_neg (by omega), if_pos h11]
  · intro h9
    simp only [variantFromBuf, Len.BAUD_CHANGE_REPLY, Len.START_DOWNLOAD_REPLY,
      Len.FLASH_DOWNLOAD_REPLY_7BIT, Len.FLASH_DOWNLOAD_REPLY_8BIT, Index.CONTROL]
    rw [if_neg hgate, h2]
    simp only [Res.bind_ok, hfw]
    rw [if_neg (by omega), if_neg (by omega), if_pos h9]
  · intro h7
    simp only [variantFromBuf, Len.BAUD_CHANGE_REPLY, Len.START_DOWNLOAD_REPLY,
      Len.FLASH_DOWNLOAD_REPLY_7BIT, Len.FLASH_DOWNLOAD_REPLY_8BIT, Index.CONTROL]
    rw [if_neg hgate, h2]
    simp only [Res.bind_ok, hfw]
    rw [if_neg (by omega), if_neg (by omega), if_neg (by omega), if_pos h7]
  · intro h6 h11 h9 h7
    have hrun : variantFromBuf buf =
        Res.err ("unsupported FirmwareDownload reply message length") := by
      simp only [variantFromBuf, Len.BAUD_CHANGE_REPLY, Len.START_DOWNLOAD_REPLY,
        Len.FLASH_DOWNLOAD_REPLY_7BIT, Len.FLASH_DOWNLOAD_REPLY_8BIT, Index.CONTROL]
      rw [if_neg hgate, h2]
      simp only [Res.bind_ok, hfw]
      rw [if_neg h6, if_neg h11, if_neg h9, if_neg h7]
    exact ⟨_, hrun⟩

/-- Witness for C6: a 7-byte FirmwareDownload-class buffer dispatches
to the 8-bit flash download reply. -/
theorem firmware_download_length_dispatch_witness :
    variantFromBuf [2, 7, 0x50, 0, 0, 3, 0x57] =
      Res.map MessageVariant.flashDownloadReply8bit
        (msgFromBuf FlashDownloadReply8bit.new [2, 7, 0x50, 0, 0, 3, 0x57]) :=
  (firmware_download_length_dispatch [2, 7, 0x50, 0, 0, 3, 0x57]
    (by decide) (by decide) (by decide)).2.2.2.1 (by decide)

theorem extCmd_clear_audit :
    ExtendedCommand.ofByte 0x1d = ExtendedCommand.clearAuditDataRequest := rfl

theorem extCmd_note_retrieved :
    ExtendedCommand.ofByte 0x0b = ExtendedCommand.noteRetrieved := rfl

/-- Claim C5: Extended-class dispatch switches on the subtype byte at
offset 3. For subtype `0x1D` (ClearAuditDataRequest) the resolver
disambiguates by the value of byte 10 (which exists when the buffer has
at least 11 bytes; shorter subtype-`0x1D` buffers hit the out-of-bounds
read of claim C1): `0x00`/`0x01` selects the Ack reply, `0x10`/`0x11`
the Results reply, anything else is an error. For subtype `0x0B`
(NoteRetrieved) a buffer shorter than 13 bytes is an error; otherwise
byte 10 equal to `0x00`/`0x01` selects the Reply, `0x7F` the Event, and
anything else is an error. The selected type then runs its own
`from_buf` validation. -/
theorem extended_subtype_dispatch (buf : List Nat)
    (hmin : 5 ≤ buf.length) (hmax : buf.length ≤ 255)
    (hext : MessageType.ofByte (controlMessageTypeBits (controlOfByte (buf.getD 2 0))) =
      MessageType.extended) :
    (buf.getD 3 0 = 0x1d → 11 ≤ buf.length →
      ((buf.getD 10 0 = 0x00 ∨ buf.getD 10 0 = 0x01 →
        variantFromBuf buf =
          Res.map MessageVariant.clearAuditDataRequestAck
            (msgFromBuf ClearAuditDataRequestAck.new buf))
       ∧ (buf.getD 10 0 = 0x10 ∨ buf.getD 10 0 = 0x11 →
        variantFromBuf buf =
          Res.map MessageVariant.clearAuditDataRequestResults
            (msgFromBuf ClearAuditDataRequestResults.new buf))
       ∧ (buf.getD 10 0 ≠ 0x00 → buf.getD 10 0 ≠ 0x01 →
          buf.getD 10 0 ≠ 0x10 → buf.getD 10 0 ≠ 0x11 →
          ∃ e, variantFromBuf buf = Res.err e)))
    ∧ (buf.getD 3 0 = 0x0b →
      ((buf.length < 13 → ∃ e, variantFromBuf buf = Res.err e)
       ∧ (13 ≤ buf.length →
          ((buf.getD 10 0 = 0x00 ∨ buf.getD 10 0 = 0x01 →
            variantFromBuf buf =
              Res.map MessageVariant.noteRetrievedReply
                (msgFromBuf NoteRetrievedReply.new buf))
           ∧ (buf.getD 10 0 = 0x7f →
            variantFromBuf buf =
              Res.map MessageVariant.noteRetrievedEvent
                (msgFromBuf NoteRetrievedEvent.new buf))
           ∧ (buf.getD 10 0 ≠ 0x00 → buf.getD 10 0 ≠ 0x01 → buf.getD 10 0 ≠ 0x7f →
            ∃ e, variantFromBuf buf = Res.err e))))) := by
  have h2 := @idx_eq_ok buf (2) (by omega)
  have h3 := @idx_eq_ok buf (3) (by omega)
  have hgate : ¬¬(Len.MIN_MESSAGE ≤ buf.length ∧ buf.length ≤ Len.MAX_MESSAGE) :=
    not_not_intro ⟨hmin, hmax⟩
  constructor
  · intro hsub h11
    have h10 := @idx_eq_ok buf (10) (by omega)
    refine ⟨?_, ?_, ?_⟩
    · intro h01
      simp only [variantFromBuf, Index.CONTROL, Index.EXT_SUBTYPE]
      rw [if_neg hgate, h2]
      simp only [Res.bind_ok, hext]
      rw [h3]
      simp only [Res.bind_ok, hsub, extCmd_clear_audit]
      rw [h10]
      simp only [Res.bind_ok]
      rw [if_pos h01]
    · intro h1011
      simp only [variantFromBuf, Index.CONTROL, Index.EXT_SUBTYPE]
      rw [if_neg hgate, h2]
      simp only [Res.bind_ok, hext]
      rw [h3]
      simp only [Res.bind_ok, hsub, extCmd_clear_audit]
      rw [h10]
      simp only [Res.bind_ok]
      rw [if_neg (by rcases h1011 with h | h <;> omega), if_pos h1011]
    · intro ha hb hc hd
      have hrun : variantFromBuf buf =
          Res.err ("invalid ClearAuditDataRequest reply type") := by
        simp only [variantFromBuf, Index.CONTROL, Index.EXT_SUBTYPE]
        rw [if_neg hgate, h2]
        simp only [Res.bind_ok, hext]
        rw [h3]
        simp only [Res.bind_ok, hsub, extCmd_clear_audit]
        rw [h10]
        simp only [Res.bind_ok]
        rw [if_neg (by omega), if_neg (by omega)]
      exact ⟨_, hrun⟩
  · intro hsub
    constructor
    · intro hlt
      have hrun : variantFromBuf buf =
          Res.err ("invalid message length for a NoteRetrieved reply") := by
        simp only [variantFromBuf, Index.CONTROL, Index.EXT_SUBTYPE]
        rw [if_neg hgate, h2]
        simp only [Res.bind_ok, hext]
        rw [h3]
        simp only [Res.bind_ok, hsub, extCmd_note_retrieved]
        rw [if_pos (by simpa [Len.NOTE_RETRIEVED_REPLY] using hlt)]
      exact ⟨_, hrun⟩
    · intro h13
      have h10 := @idx_eq_ok buf (10) (by omega)
      have hnlt : ¬buf.length < Len.NOTE_RETRIEVED_REPLY := by
        simp [Len.NOTE_RETRIEVED_REPLY]
        omega
      refine ⟨?_, ?_, ?_⟩
      · intro h01
        rcases h01 with h | h
        · simp only [variantFromBuf, Index.CONTROL, Index.EXT_SUBTYPE, NoteRetrievedIndex.ACKNAK]
          rw [if_neg hgate, h2]
          simp only [Res.bind_ok, hext]
          rw [h3]
          simp only [Res.bind_ok, hsub, extCmd_note_retrieved]
          rw [if_neg hnlt, h10]
          simp only [Res.bind_ok, h]
        · simp only [variantFromBuf, Index.CONTROL, Index.EXT_SUBTYPE, NoteRetrievedIndex.ACKNAK]
          rw [if_neg hgate, h2]
          simp only [Res.bind_ok, hext]
          rw [h3]
          simp only [Res.bind_ok, hsub, extCmd_note_retrieved]
          rw [if_neg hnlt, h10]
          simp only [Res.bind_ok, h]
      · intro h7f
        simp only [variantFromBuf, Index.CONTROL, Index.EXT_SUBTYPE, NoteRetrievedIndex.ACKNAK]
        rw [if_neg hgate, h2]
        simp only [Res.bind_ok, hext]
        rw [h3]
        simp only [Res.bind_ok, hsub, extCmd_note_retrieved]
        rw [if_neg hnlt, h10]
        simp only [Res.bind_ok, h7f]
      · intro ha hb hc
        have hrun : variantFromBuf buf = Res.err ("invalid AckNak/Event value") := by
          simp only [variantFromBuf, Index.CONTROL, Index.EXT_SUBTYPE, NoteRetrievedIndex.ACKNAK]
          rw [if_neg hgate, h2]
          simp only [Res.bind_ok, hext]
          rw [h3]
          simp only [Res.bind_ok, hsub, extCmd_note_retrieved]
          rw [if_neg hnlt, h10]
          simp only [Res.bind_ok]
        exact ⟨_, hrun⟩


/-- Witness for C5: the spec's concrete scenario — a 13-byte
Extended-class buffer with subtype `0x1D` and byte 10 equal to `0x01`
dispatches to the ClearAuditDataRequestAck decoder. -/
theorem extended_subtype_dispatch_witness :
    variantFromBuf [2, 13, 0x70, 0x1d, 0, 0, 0, 0, 0, 0, 1, 3, 0x61] =
      Res.map MessageVariant.clearAuditDataRequestAck
        (msgFromBuf ClearAuditDataRequestAck.new
          [2, 13, 0x70, 0x1d, 0, 0, 0, 0, 0, 0, 1, 3, 0x61]) :=
  ((extended_subtype_dispatch [2, 13, 0x70, 0x1d, 0, 0, 0, 0, 0, 0, 1, 3, 0x61]
    (by decide) (by decide) (by decide)).1 (by decide) (by decide)).1 (Or.inr (by decide))

/-- Claim C7: the free function `validate_checksum` rejects any slice
whose length is outside `[MIN_MESSAGE, MAX_MESSAGE] = [5, 255]`;
otherwise it accepts exactly when the XOR-fold of bytes 1 through
`len - 3` (excluding STX, ETX and the checksum byte itself) equals the
trailing byte at `len - 1`, and a mismatch is reported as a checksum
error, never silently ignored. -/
theorem validate_checksum_spec (buf : List Nat) :
    ((buf.length < 5 ∨ 255 < buf.length) →
      validateChecksum buf = Res.err ("invalid message length"))
    ∧ (5 ≤ buf.length → buf.length ≤ 255 →
        (validateChecksum buf = Res.ok () ↔
          checksum ((buf.drop 1).take (buf.length - 3)) = buf.getD (buf.length - 1) 0)
        ∧ (checksum ((buf.drop 1).take (buf.length - 3)) ≠ buf.getD (buf.length - 1) 0 →
            validateChecksum buf = Res.err ("invalid checksum"))) := by
  constructor
  · intro h
    simp only [validateChecksum]
    rw [if_pos (by simp only [Len.MIN_MESSAGE, Len.MAX_MESSAGE]; omega)]
  · intro h5 h255
    have hwin : buf.length - 2 - Index.LEN = buf.length - 3 := by
      simp only [Index.LEN]
      omega
    simp only [validateChecksum, Index.LEN]
    rw [if_neg (not_not_intro ⟨h5, h255⟩)]
    simp only [show buf.length - 2 - 1 = buf.length - 3 from by omega]
    by_cases hchk : checksum ((buf.drop 1).take (buf.length - 3)) = buf.getD (buf.length - 1) 0
    · rw [if_pos hchk]
      exact ⟨iff_of_true rfl hchk, fun hne => absurd hchk hne⟩
    · rw [if_neg hchk]
      exact ⟨iff_of_false (fun h => Res.noConfusion h) hchk, fun _ => rfl⟩

/-- Witness for C7: the valid 11-byte Omnibus frame passes, and the
same frame with the trailing byte corrupted fails with the checksum
error. -/
theorem validate_checksum_spec_witness :
    validateChecksum [2, 11, 32, 0, 0, 0, 0, 0, 0, 3, 43] = Res.ok ()
    ∧ validateChecksum [2, 11, 32, 0, 0, 0, 0, 0, 0, 3, 44] =
        Res.err ("invalid checksum")
    ∧ validateChecksum [2, 3, 3] = Res.err ("invalid message length") := by
  refine ⟨?_, ?_, ?_⟩
  · exact ((validate_checksum_spec [2, 11, 32, 0, 0, 0, 0, 0, 0, 3, 43]).2
      (by decide) (by decide)).1.mpr (by decide)
  · exact ((validate_checksum_spec [2, 11, 32, 0, 0, 0, 0, 0, 0, 3, 44]).2
      (by decide) (by decide)).2 (by decide)
  · exact (validate_checksum_spec [2, 3, 3]).1 (by decide)

/-!
Seven-bit pack/unpack: supporting bit-arithmetic lemmas.
-/

set_option maxRecDepth 8000 in
theorem nibble_recomb : ∀ b : Nat, b < 256 →
    (((b >>> 4) &&& 0xf) <<< 4) ||| ((b &&& 0xf) &&& 0xf) = b := by decide

theorem shiftLeft_or_eq_add (x y k : Nat) (hy : y < 2 ^ k) :
    (x <<< k) ||| y = 2 ^ k * x + y := by
  apply Nat.eq_of_testBit_eq
  intro i
  rw [Nat.testBit_or, Nat.testBit_shiftLeft, Nat.testBit_mul_pow_two_add x hy i]
  rcases Nat.lt_or_ge i k with h | h
  · simp [h, Nat.not_le.mpr h]
  · have hyb : y.testBit i = false :=
      Nat.testBit_lt_two_pow (lt_of_lt_of_le hy (Nat.pow_le_pow_right (by norm_num) h))
    simp [h, Nat.not_lt.mpr h, hyb]

theorem and_255_eq_mod (x : Nat) : x &&& 255 = x % 256 := by
  simpa using Nat.and_pow_two_sub_one_eq_mod x 8

theorem and_15_eq_mod (x : Nat) : x &&& 15 = x % 16 := by
  simpa using Nat.and_pow_two_sub_one_eq_mod x 4

/-- Counterexample for C8: packing the number unpacked from a byte
sequence does not reproduce the sequence when a byte uses its high
nibble — `seven_bit_u16` masks each byte with `0xf` first. -/
theorem seven_bit_pack_unpack_not_id :
    u16_seven_bit (seven_bit_u16 [0x11, 0, 0, 0]) ≠ [0x11, 0, 0, 0] := by decide

/-- Claim C8 (amended): unpack-of-pack is the identity on all 65536
16-bit values and all 256 8-bit values; pack-of-unpack reproduces a
4-byte (resp. 2-byte) sequence exactly when every byte of the sequence
carries its 4 significant bits in the low nibble (each byte below 16),
the layout the seven-bit protocol transmits. -/
theorem seven_bit_inverse :
    (∀ n : Nat, n < 65536 → seven_bit_u16 (u16_seven_bit n) = n)
    ∧ (∀ n : Nat, n < 256 → seven_bit_u8 (u8_seven_bit n) = n)
    ∧ (∀ a : Nat, a < 16 → ∀ b : Nat, b < 16 → ∀ c : Nat, c < 16 → ∀ d : Nat, d < 16 →
        u16_seven_bit (seven_bit_u16 [a, b, c, d]) = [a, b, c, d])
    ∧ (∀ a : Nat, a < 16 → ∀ b : Nat, b < 16 →
        u8_seven_bit (seven_bit_u8 [a, b]) = [a, b]) := by
  refine ⟨?_, ?_, ?_, ?_⟩
  · intro n hn
    have hb0 : (n >>> 8) &&& 255 < 256 := by
      have := Nat.and_lt_two_pow (n >>> 8) (show (255 : Nat) < 2 ^ 8 by norm_num)
      simpa using this
    have hb1 : n &&& 255 < 256 := by
      have := Nat.and_lt_two_pow n (show (255 : Nat) < 2 ^ 8 by norm_num)
      simpa using this
    simp only [u16_seven_bit, seven_bit_u16, List.getD_cons_zero, List.getD_cons_succ]
    rw [nibble_recomb _ hb0, nibble_recomb _ hb1]
    rw [shiftLeft_or_eq_add _ _ 8 (by simpa using hb1)]
    rw [and_255_eq_mod, and_255_eq_mod, Nat.shiftRight_eq_div_pow]
    norm_num
    omega
  · exact (by set_option maxRecDepth 8000 in decide)
  · intro a ha b hb c hc d hd
    simp only [seven_bit_u16, u16_seven_bit, List.getD_cons_zero, List.getD_cons_succ]
    rw [and_15_eq_mod a, and_15_eq_mod b, and_15_eq_mod c, and_15_eq_mod d,
      Nat.mod_eq_of_lt ha, Nat.mod_eq_of_lt hb, Nat.mod_eq_of_lt hc, Nat.mod_eq_of_lt hd]
    rw [shiftLeft_or_eq_add a b 4 (by omega), shiftLeft_or_eq_add c d 4 (by omega)]
    rw [shiftLeft_or_eq_add _ _ 8 (by norm_num; omega)]
    simp only [Nat.shiftRight_eq_div_pow, and_255_eq_mod, and_15_eq_mod,
      List.cons.injEq, and_true]
    norm_num
    refine ⟨?_, ?_, ?_, ?_⟩ <;> omega
  · exact (by set_option maxRecDepth 8000 in decide)

/-- Witness for C8: the inverse laws evaluated at `0x1234` resp. `0x54`
and at the nibble sequences they pack to. -/
theorem seven_bit_inverse_witness :
    seven_bit_u16 (u16_seven_bit 0x1234) = 0x1234
    ∧ seven_bit_u8 (u8_seven_bit 0x54) = 0x54
    ∧ u16_seven_bit (seven_bit_u16 [1, 2, 3, 4]) = [1, 2, 3, 4]
    ∧ u8_seven_bit (seven_bit_u8 [5, 4]) = [5, 4] :=
  ⟨seven_bit_inverse.1 0x1234 (by decide), seven_bit_inverse.2.1 0x54 (by decide),
   seven_bit_inverse.2.2.1 1 (by decide) 2 (by decide) 3 (by decide) 4 (by decide),
   seven_bit_inverse.2.2.2 5 (by decide) 4 (by decide)⟩

set_option maxRecDepth 8000 in
/-- Claim C9: building a `Control` from a byte masks off bit 7, so
re-encoding gives back the byte with bit 7 cleared (the identity on
bits 0 through 6), and the three sub-fields sit exactly at bit 0
(ACK/NAK), bits 1-3 (device type) and bits 4-6 (message-type class). -/
theorem control_byte_roundtrip :
    ∀ b : Nat, b < 256 →
      controlToByte (controlOfByte b) = b % 128
      ∧ controlAcknak (controlOfByte b) = decide (b % 2 = 1)
      ∧ controlDeviceTypeBits (controlOfByte b) = b / 2 % 8
      ∧ controlMessageTypeBits (controlOfByte b) = b / 16 % 8 := by decide

/-- Witness for C9 at the byte `0xAB` (bit 7 set). -/
theorem control_byte_roundtrip_witness :
    controlToByte (controlOfByte 0xab) = 0xab % 128
    ∧ controlAcknak (controlOfByte 0xab) = decide (0xab % 2 = 1)
    ∧ controlDeviceTypeBits (controlOfByte 0xab) = 0xab / 2 % 8
    ∧ controlMessageTypeBits (controlOfByte 0xab) = 0xab / 16 % 8 :=
  control_byte_roundtrip 0xab (by decide)


set_option maxRecDepth 8000 in
theorem ctrl_acknak_iso : ∀ c : Nat, c < 256 → ∀ v : Bool,
    controlDeviceTypeBits (controlSetAcknak c v) = controlDeviceTypeBits c
    ∧ controlMessageTypeBits (controlSetAcknak c v) = controlMessageTypeBits c := by decide

set_option maxRecDepth 8000 in
theorem ctrl_device_iso : ∀ c : Nat, c < 256 → ∀ v : Nat, v < 8 →
    controlAcknak (controlSetDeviceType c v) = controlAcknak c
    ∧ controlMessageTypeBits (controlSetDeviceType c v) = controlMessageTypeBits c := by decide

set_option maxRecDepth 8000 in
theorem ctrl_mt_iso : ∀ c : Nat, c < 256 → ∀ v : Nat, v < 8 →
    controlAcknak (controlSetMessageType c v) = controlAcknak c
    ∧ controlDeviceTypeBits (controlSetMessageType c v) = controlDeviceTypeBits c := by decide

/-- The message-type store only keeps the low 3 bits of its argument. -/
theorem controlSetMessageType_mask (c v : Nat) :
    controlSetMessageType c (v &&& 7) = controlSetMessageType c v := by
  simp only [controlSetMessageType, setBitRange,
    show ((1 <<< (6 - 4 + 1)) - 1 : Nat) = 7 from by decide, Nat.and_assoc, Nat.and_self]

/-- Claim C10: each control-byte setter touches only the control byte at
index 2, and rewriting one sub-field leaves the decoded values of the
other two sub-fields unchanged — for every ACK/NAK value, every device
type, and all 8 message-type-class values. -/
theorem control_field_isolation (buf : List Nat) (h2 : 2 < buf.length)
    (hc : buf.getD 2 0 < 256) :
    (∀ a : AckNak,
       msgDeviceType (msgSetAcknak buf a) = msgDeviceType buf
       ∧ msgMessageType (msgSetAcknak buf a) = msgMessageType buf
       ∧ ∀ i, i ≠ 2 → (msgSetAcknak buf a).getD i 0 = buf.getD i 0)
    ∧ (∀ d : DeviceType,
       msgAcknak (msgSetDeviceType buf d) = msgAcknak buf
       ∧ msgMessageType (msgSetDeviceType buf d) = msgMessageType buf
       ∧ ∀ i, i ≠ 2 → (msgSetDeviceType buf d).getD i 0 = buf.getD i 0)
    ∧ (∀ mt : MessageType,
       msgAcknak (msgSetMessageType buf mt) = msgAcknak buf
       ∧ msgDeviceType (msgSetMessageType buf mt) = msgDeviceType buf
       ∧ ∀ i, i ≠ 2 → (msgSetMessageType buf mt).getD i 0 = buf.getD i 0) := by
  refine ⟨?_, ?_, ?_⟩
  · intro a
    refine ⟨?_, ?_, fun i hi => getD_set_ne _ _ (fun h => hi h.symm)⟩
    · simp only [msgDeviceType, msgSetAcknak, Index.CONTROL]
      rw [getD_set_self _ _ h2, (ctrl_acknak_iso _ hc a.toBool).1]
    · simp only [msgMessageType, msgSetAcknak, Index.CONTROL]
      rw [getD_set_self _ _ h2, (ctrl_acknak_iso _ hc a.toBool).2]
  · intro d
    have hdc : d.code < 8 := by cases d <;> decide
    refine ⟨?_, ?_, fun i hi => getD_set_ne _ _ (fun h => hi h.symm)⟩
    · simp only [msgAcknak, msgSetDeviceType, Index.CONTROL]
      rw [getD_set_self _ _ h2, (ctrl_device_iso _ hc _ hdc).1]
    · simp only [msgMessageType, msgSetDeviceType, Index.CONTROL]
      rw [getD_set_self _ _ h2, (ctrl_device_iso _ hc _ hdc).2]
  · intro mt
    have hmc : mt.code &&& 7 < 8 := by
      have := Nat.and_lt_two_pow mt.code (show (7 : Nat) < 2 ^ 3 by norm_num)
      simpa using this
    refine ⟨?_, ?_, fun i hi => getD_set_ne _ _ (fun h => hi h.symm)⟩
    · simp only [msgAcknak, msgSetMessageType, Index.CONTROL]
      rw [getD_set_self _ _ h2, ← controlSetMessageType_mask, (ctrl_mt_iso _ hc _ hmc).1]
    · simp only [msgDeviceType, msgSetMessageType, Index.CONTROL]
      rw [getD_set_self _ _ h2, ← controlSetMessageType_mask, (ctrl_mt_iso _ hc _ hmc).2]

/-- Witness for C10 on a concrete 4-byte buffer whose control byte is
`0x75`. -/
theorem control_field_isolation_witness :
    msgDeviceType (msgSetAcknak [2, 13, 0x75, 9] AckNak.nak) = msgDeviceType [2, 13, 0x75, 9]
    ∧ msgAcknak (msgSetDeviceType [2, 13, 0x75, 9] DeviceType.billRecycler) =
        msgAcknak [2, 13, 0x75, 9]
    ∧ msgAcknak (msgSetMessageType [2, 13, 0x75, 9] MessageType.extended) =
        msgAcknak [2, 13, 0x75, 9] := by
  have h := control_field_isolation [2, 13, 0x75, 9] (by decide) (by decide)
  exact ⟨(h.1 AckNak.nak).1, (h.2.1 DeviceType.billRecycler).1, (h.2.2 MessageType.extended).1⟩

end Ebds
